import Mathlib

/-!
Verification of the Twin Synchronization & Dual-View Engine of the
home-digital-twin repository (frontend/main.js).  The definitions below are a
shallow embedding of the JavaScript source: JS numbers are modelled as ℚ
(with `Option ℚ` where NaN is observable), JS dates as millisecond
timestamps in ℚ, the mutable globals (DEVICE_DB, interactableMeshes,
state3D, floorPlane, FLOOR_HEIGHT, window.pendingDatabaseDevices) as fields
of an explicit `World` record, and the async persistence calls as an
explicit `RemoteResult` parameter.  main.js contains two concatenated
copies of most of the application code; functions are embedded from the
second copy (lines 1129-2758), which is the one that wins function-
declaration hoisting and that the handlers actually call.
-/

namespace HomeTwin

/-! ### Status Deriver: health (main.js lines 1310-1314, getHealthInfo) -/

/-- One of the three fixed records returned by getHealthInfo. -/
structure HealthInfo where
  label : String
  hex : String
  three : Nat
  cls : String
deriving DecidableEq

def healthHealthy : HealthInfo :=
  { label := "Healthy", hex := "#22c55e", three := 0x22c55e, cls := "badge-healthy" }

def healthWarning : HealthInfo :=
  { label := "Warning", hex := "#f59e0b", three := 0xf59e0b, cls := "badge-warning" }

def healthCritical : HealthInfo :=
  { label := "Critical", hex := "#ef4444", three := 0xef4444, cls := "badge-critical" }

/-- getHealthInfo for an ordinary numeric score. -/
def getHealthInfo (score : ℚ) : HealthInfo :=
  if score ≥ 80 then healthHealthy
  else if score ≥ 50 then healthWarning
  else healthCritical

/-- JS `score >= c` where `score` may be NaN (`none`): any comparison with
NaN is false. -/
def jsGe (score : Option ℚ) (c : ℚ) : Bool :=
  match score with
  | none => false
  | some x => decide (x ≥ c)

/-- getHealthInfo as executed by the JS engine on a possibly-NaN score: the
function body performs no range validation, only the two `>=` tests. -/
def getHealthInfoJS (score : Option ℚ) : HealthInfo :=
  if jsGe score 80 then healthHealthy
  else if jsGe score 50 then healthWarning
  else healthCritical

/-- Rank of a tier, used to state monotonicity (healthy above warning above
critical). -/
def healthRank (h : HealthInfo) : ℕ :=
  if h = healthHealthy then 2 else if h = healthWarning then 1 else 0

/-! ### Status Deriver: warranty (main.js lines 1388-1393 getWarrantyStatus,
1950-1983 addWarrantyIndicator, 1352/1953 daysRemaining) -/

structure WarrantyStatus where
  color : String
  status : String
deriving DecidableEq

/-- getWarrantyStatus (main.js 1388-1393). -/
def getWarrantyStatus (daysRemaining : ℤ) : WarrantyStatus :=
  if daysRemaining < 0 then { color := "#ef4444", status := "expired" }
  else if daysRemaining < 30 then { color := "#f59e0b", status := "critical" }
  else if daysRemaining < 90 then { color := "#eab308", status := "warning" }
  else { color := "#22c55e", status := "healthy" }

/-- Math.floor((new Date(expiry) - new Date()) / (1000*60*60*24)), both
dates as millisecond timestamps (main.js 1352 and 1953 use the same
formula). -/
def daysRemaining (expiryMs nowMs : ℚ) : ℤ :=
  ⌊(expiryMs - nowMs) / (1000 * 60 * 60 * 24)⌋

/-- A warranty ring child mesh attached by addWarrantyIndicator, with its
GPU-resource disposal flags (for completeMeshDeletion). -/
structure RingChild where
  color : Nat
  pulsing : Bool
  geomDisposed : Bool
  matDisposed : Bool
deriving DecidableEq

/-- Ring color chosen by addWarrantyIndicator (main.js 1955-1958); none
means no indicator is attached (main.js 1960). -/
def ringColor (daysRemaining : ℤ) : Option Nat :=
  if daysRemaining < 0 then some 0xef4444
  else if daysRemaining < 30 then some 0xf59e0b
  else if daysRemaining < 90 then some 0xeab308
  else none

/-- The ring child addWarrantyIndicator attaches for a given daysRemaining;
the pulse tween (main.js 1976-1982) runs exactly when daysRemaining < 30. -/
def warrantyRing (daysRemaining : ℤ) : Option RingChild :=
  (ringColor daysRemaining).map
    (fun c => { color := c, pulsing := decide (daysRemaining < 30),
                geomDisposed := false, matDisposed := false })

/-- The correspondence between CSS hex strings and three.js color codes
used by the source's single color palette. -/
def colorCodeOfHex (s : String) : Option Nat :=
  if s = "#ef4444" then some 0xef4444
  else if s = "#f59e0b" then some 0xf59e0b
  else if s = "#eab308" then some 0xeab308
  else if s = "#22c55e" then some 0x22c55e
  else none

/-! ### Floor/Level Filter (main.js 1774-1807 floorSelect change handler,
2561-2567 renderNodeView floor filter) -/

/-- floorPlane.constant set by the floorSelect handler for a numeric floor
(main.js 1798). -/
def clippingConstant (floorNum : ℤ) (floorHeight : ℚ) : ℚ :=
  (floorNum : ℚ) * floorHeight

/-- Math.floor(position.y / FLOOR_HEIGHT) + 1, the floor a device is on
(main.js 2565 and 2722). -/
def deviceFloorOf (y floorHeight : ℚ) : ℤ :=
  ⌊y / floorHeight⌋ + 1

/-! ### Coordinate Projector (main.js 2569-2581 renderNodeView projection,
2705-2735 getNodeAtPosition) -/

/-- scale2d, pixels per meter (main.js 2575 and 2715). -/
def metersToPixels : ℚ := 30

/-- Projection used when drawing a device in renderNodeView
(main.js 2576-2577): x2d = x * scale2d, z2d = -z * scale2d. -/
def renderProject (wx wz : ℚ) : ℚ × ℚ :=
  (wx * metersToPixels, -wz * metersToPixels)

/-- Projection used when hit-testing in getNodeAtPosition
(main.js 2725-2726); textually the same formula as renderProject. -/
def hitProject (wx wz : ℚ) : ℚ × ℚ :=
  (wx * metersToPixels, -wz * metersToPixels)

/-- 2D viewport state (pan offset and zoom scale), main.js 2386-2396. -/
structure NodeViewState where
  offsetX : ℚ
  offsetY : ℚ
  scale : ℚ
deriving DecidableEq

/-- Where a projected point lands on screen: renderNodeView applies
ctx.translate(offsetX, offsetY) then ctx.scale(scale, scale)
(main.js 2529-2530), so a point p drawn in projected space appears at
offset + scale * p. -/
def viewportToScreen (v : NodeViewState) (p : ℚ × ℚ) : ℚ × ℚ :=
  (v.offsetX + v.scale * p.1, v.offsetY + v.scale * p.2)

/-- The inverse mapping used by getNodeAtPosition (main.js 2711-2712):
worldX = (mouseX - offsetX) / scale, worldY = (mouseY - offsetY) / scale. -/
def screenToProjected (v : NodeViewState) (m : ℚ × ℚ) : ℚ × ℚ :=
  ((m.1 - v.offsetX) / v.scale, (m.2 - v.offsetY) / v.scale)

/-- Squared cursor-to-node distance; getNodeAtPosition compares
Math.sqrt of this against 20 (main.js 2728-2729), which for nonnegative
radicands is equivalent to comparing this against 400. -/
def hitDistSq (a b : ℚ × ℚ) : ℚ :=
  (a.1 - b.1) ^ 2 + (a.2 - b.2) ^ 2

/-! ### Data model: materials, meshes, device records and the World

The `World` bundles the mutable globals of main.js: DEVICE_DB,
interactableMeshes, window.pendingDatabaseDevices, state3D
(selectedMesh, blinkTween), floorPlane.constant and FLOOR_HEIGHT.  Tween
identity is tracked so that a started-but-never-stopped highlight
animation remains observable (`runningTweens`). -/

/-- The two material properties select3DMesh mutates (emissive color and
emissiveIntensity, main.js 2067-2068); an instance's material snapshot
(userData.originalMat) is a value of the same type. -/
structure Material where
  emissiveColor : Nat
  emissiveIntensity : ℚ
deriving DecidableEq

/-- A member of interactableMeshes / the scene.  Disposal flags model
the dispose() calls of completeMeshDeletion; `inScene` models attachment
to the scene graph; `centerY` models the Box3 center used for floor
framing on selection. -/
structure Mesh where
  name : String
  dbKey : String
  posX : ℚ
  posY : ℚ
  posZ : ℚ
  rotYDeg : ℚ
  centerY : ℚ
  material : Material
  originalMat : Option Material
  geomDisposed : Bool
  matDisposed : Bool
  children : List RingChild
  inScene : Bool
deriving DecidableEq

/-- A DEVICE_DB entry as built by spawnDeviceFromDatabase
(main.js 1924-1935). -/
structure DeviceData where
  dbId : Option Nat
  name : String
  typeStr : String
  manufacturer : String
  serial : String
  health : ℚ
  location : String
  notes : String
  warrantyExpiry : Option ℚ
deriving DecidableEq

/-- A device record returned by the Persistence Service
(GET /devices/warehouse/id), as consumed by spawnDeviceFromDatabase. -/
structure DeviceRow where
  id : Nat
  meshIdentifier : String
  productName : String
  productType : String
  manufacturer : String
  serialNumber : String
  healthScore : ℚ
  floorNumber : Nat
  positionX : ℚ
  positionY : ℚ
  positionZ : ℚ
  rotationY : ℚ
  notes : String
  warrantyExpiry : Option ℚ
deriving DecidableEq

/-- The mutable globals of main.js. -/
structure World where
  deviceDB : List (String × DeviceData)
  interactable : List Mesh
  pending : List DeviceRow
  selected : Option String
  blinkTween : Option Nat
  runningTweens : List Nat
  nextTween : Nat
  floorConstant : ℚ
  floorHeight : ℚ
deriving DecidableEq

/-- Outcome of an async Persistence Service call. -/
inductive RemoteResult where
  | ok
  | fail
deriving DecidableEq

/-! ### Small JS-object and array helpers -/

/-- JS Object lookup DEVICE_DB[k]. -/
def dbLookup (db : List (String × DeviceData)) (k : String) : Option DeviceData :=
  (db.find? (fun e => e.1 == k)).map Prod.snd

/-- JS `delete DEVICE_DB[k]` (object keys are unique, so removing every
binding of k is the same operation). -/
def dbRemove (k : String) (db : List (String × DeviceData)) :
    List (String × DeviceData) :=
  db.filter (fun e => e.1 != k)

/-- JS `DEVICE_DB[k] = v` (binding order is irrelevant to the engine). -/
def dbInsert (k : String) (v : DeviceData) (db : List (String × DeviceData)) :
    List (String × DeviceData) :=
  (k, v) :: dbRemove k db

/-- Mutate the first array element satisfying p in place (the JS code
mutates the object found by Array.prototype.find). -/
def updateFirst (p : Mesh → Bool) (f : Mesh → Mesh) : List Mesh → List Mesh
  | [] => []
  | m :: ms => if p m then f m :: ms else m :: updateFirst p f ms

/-- interactableMeshes.splice(indexOf(mesh), 1): removal of the first
matching element. -/
def removeFirst (p : Mesh → Bool) : List Mesh → List Mesh
  | [] => []
  | m :: ms => if p m then ms else m :: removeFirst p ms

/-- true when pat occurs at the start of s (character lists). -/
def matchesFrom : List Char → List Char → Bool
  | [], _ => true
  | _ :: _, [] => false
  | a :: as, b :: bs => a == b && matchesFrom as bs

/-- true when pat occurs anywhere in s (character lists). -/
def containsChars (pat : List Char) : List Char → Bool
  | [] => matchesFrom pat []
  | c :: rest => matchesFrom pat (c :: rest) || containsChars pat rest

/-- JS String.prototype.includes. -/
def strIncludes (s pat : String) : Bool :=
  containsChars pat.toList s.toList

/-- interactableMeshes.find(m => m.userData.dbKey === dbKey)
(main.js 2057). -/
def findMesh (w : World) (k : String) : Option Mesh :=
  w.interactable.find? (fun m => m.dbKey == k)

/-! ### Selection Controller (main.js 2056-2122) -/

/-- Restore a mesh's material from its userData.originalMat snapshot; when
the snapshot is missing the code only warns and leaves the material
(main.js 2100-2105). -/
def restoreOriginal (m : Mesh) : Mesh :=
  match m.originalMat with
  | some om => { m with material := om }
  | none => m

/-- deselectAll3D (main.js 2095-2122): stop the blink tween, restore the
selected mesh's material, clear the selection, optionally reset the camera
framing and disable clipping. -/
def deselectAll3D (w : World) (shouldResetCamera : Bool) : World :=
  let w1 :=
    match w.blinkTween with
    | some t => { w with blinkTween := none, runningTweens := w.runningTweens.erase t }
    | none => w
  let w2 :=
    match w1.selected with
    | some k =>
        { w1 with
          interactable := updateFirst (fun m => m.dbKey == k) restoreOriginal w1.interactable,
          selected := none }
    | none => w1
  if shouldResetCamera then { w2 with floorConstant := 1000 } else w2

/-- mesh.material.emissive = color; mesh.material.emissiveIntensity = 0.8
(main.js 2067-2068). -/
def highlightMaterial (mat : Material) (colorCode : Nat) : Material :=
  { mat with emissiveColor := colorCode, emissiveIntensity := 4 / 5 }

/-- The in-place material mutation select3DMesh performs on the found
mesh. -/
def applyHighlight (colorCode : Nat) (m : Mesh) : Mesh :=
  { m with material := highlightMaterial m.material colorCode }

/-- select3DMesh (main.js 2061-2093): deselect the previous selection
first, look the device up in DEVICE_DB (a missing entry makes the JS
handler throw on data.health), tint the mesh with its health color, start
a fresh blink tween, and set the clipping plane to the mesh's floor. -/
def select3DMesh (w : World) (mesh : Mesh) : Except String World :=
  let w1 := deselectAll3D w false
  match dbLookup w1.deviceDB mesh.dbKey with
  | none => .error "TypeError: data is undefined"
  | some data =>
      let h := getHealthInfo data.health
      let floorIndex : ℤ := ⌊mesh.centerY / w1.floorHeight⌋ + 1
      .ok { w1 with
        selected := some mesh.dbKey,
        interactable :=
          updateFirst (fun m => m.dbKey == mesh.dbKey) (applyHighlight h.three)
            w1.interactable,
        blinkTween := some w1.nextTween,
        runningTweens := w1.runningTweens ++ [w1.nextTween],
        nextTween := w1.nextTween + 1,
        floorConstant := (floorIndex : ℚ) * w1.floorHeight }

/-- select3DByKey (main.js 2056-2059): a key with no matching mesh is
silently ignored. -/
def select3DByKey (w : World) (k : String) : Except String World :=
  match findMesh w k with
  | some m => select3DMesh w m
  | none => .ok w

/-! ### Visual Instance Pool: spawning (main.js 1886-1948 spawnDeviceFrom-
Database, 1950-1983 addWarrantyIndicator, 2041-2046 pending drain) -/

/-- The DEVICE_DB key of a database device (main.js 1912). -/
def dbKeyOfRow (row : DeviceRow) : String :=
  "db_" ++ toString row.id

/-- addWarrantyIndicator applied to a mesh (main.js 1950-1983): no expiry
or a healthy tier attaches nothing. -/
def addWarrantyIndicator (m : Mesh) (warrantyExpiry : Option ℚ) (nowMs : ℚ) : Mesh :=
  match warrantyExpiry with
  | none => m
  | some e =>
      match warrantyRing (daysRemaining e nowMs) with
      | some r => { m with children := m.children ++ [r] }
      | none => m

/-- spawnDeviceFromDatabase (main.js 1886-1948).  With no template mesh
whose name contains the row's mesh identifier, the row is pushed onto
window.pendingDatabaseDevices and null is returned; otherwise the template
is cloned, positioned, rotated (rotation stored here in degrees; the
source converts to radians by the constant factor π/180), given a cloned
material plus an originalMat snapshot, registered in DEVICE_DB, pushed
onto interactableMeshes, added to the scene, and given its warranty
indicator. -/
def spawnDeviceFromDatabase (nowMs : ℚ) (w : World) (row : DeviceRow) :
    World × Option Mesh :=
  match w.interactable.find? (fun m => strIncludes m.name row.meshIdentifier) with
  | none => ({ w with pending := w.pending ++ [row] }, none)
  | some tmpl =>
      let key := dbKeyOfRow row
      let clone0 : Mesh :=
        { tmpl with
          name := key,
          dbKey := key,
          posX := row.positionX,
          posY := row.positionY,
          posZ := row.positionZ,
          rotYDeg := if row.rotationY ≠ 0 then row.rotationY else tmpl.rotYDeg,
          centerY := row.positionY,
          material := tmpl.material,
          originalMat := some tmpl.material,
          geomDisposed := false,
          matDisposed := false,
          inScene := true }
      let clone := addWarrantyIndicator clone0 row.warrantyExpiry nowMs
      let data : DeviceData :=
        { dbId := some row.id,
          name := row.productName,
          typeStr := row.productType,
          manufacturer := row.manufacturer,
          serial := row.serialNumber,
          health := row.healthScore,
          location := "Floor " ++ toString row.floorNumber,
          notes := row.notes,
          warrantyExpiry := row.warrantyExpiry }
      ({ w with
          deviceDB := dbInsert key data w.deviceDB,
          interactable := w.interactable ++ [clone] },
        some clone)

/-- The pending drain at the end of the GLB load callback
(main.js 2041-2046): window.pendingDatabaseDevices.forEach(spawn...) then
window.pendingDatabaseDevices = [].  Array.prototype.forEach visits only
the elements present when iteration starts, so rows re-enqueued during the
drain are discarded by the final reset. -/
def drainPending (nowMs : ℚ) (w : World) : World :=
  let snapshot := w.pending
  let w1 := snapshot.foldl (fun acc row => (spawnDeviceFromDatabase nowMs acc row).1) w
  { w1 with pending := [] }

/-! ### Deletion (main.js 1406-1486 deleteDeviceBtn handler, 1489-1535
completeMeshDeletion) and position update (1538-1573 updatePositionBtn
handler, 1157-1174 saveDevicePosition) -/

/-- What the delete click surfaces to the user. -/
inductive DeleteOutcome where
  | noSelection
  | noData
  | cancelled
  | remoteFailed
  | removed (wasDbDevice : Bool)
deriving DecidableEq

/-- The deleteDeviceBtn click handler (main.js 1406-1486).  For a database
device the remote DELETE runs first and a failure aborts with an alert;
then the selection is cleared, the mesh is removed from interactableMeshes,
the DEVICE_DB entry is deleted, and a 400 ms fade tween is started whose
onComplete callback performs completeMeshDeletion.  The second component is
that deferred-disposal target (the captured meshToDelete reference). -/
def deleteClick (w : World) (confirmed : Bool) (remote : RemoteResult) :
    World × Option Mesh × DeleteOutcome :=
  match w.selected with
  | none => (w, none, .noSelection)
  | some k =>
      match findMesh w k with
      | none => (w, none, .noSelection)
      | some meshToDelete =>
          match dbLookup w.deviceDB k with
          | none => (w, none, .noData)
          | some data =>
              if ¬ confirmed then (w, none, .cancelled)
              else if data.dbId.isSome ∧ remote = .fail then (w, none, .remoteFailed)
              else
                let w1 :=
                  { w with
                    selected := none,
                    interactable :=
                      removeFirst (fun m => m.dbKey == meshToDelete.dbKey) w.interactable,
                    deviceDB := dbRemove meshToDelete.dbKey w.deviceDB }
                (w1, some meshToDelete, .removed data.dbId.isSome)

/-- geometry.dispose() / material.dispose() on a warranty ring child
(main.js 1514-1522). -/
def disposeRing (c : RingChild) : RingChild :=
  { c with geomDisposed := true, matDisposed := true }

/-- completeMeshDeletion (main.js 1489-1535), run from the fade tween's
onComplete: dispose geometry and material(s), dispose and remove every
child, detach from parent and scene.  Returns the disposed mesh and the
disposed former children. -/
def completeMeshDeletion (mesh : Mesh) : Mesh × List RingChild :=
  let disposedChildren := mesh.children.map disposeRing
  ({ mesh with
      geomDisposed := true,
      matDisposed := true,
      children := [],
      inScene := false },
    disposedChildren)

/-- saveDevicePosition (main.js 1157-1174): the PUT either succeeds or
throws, and the catch block only logs — the function returns nothing in
both cases, so its caller cannot observe the failure. -/
def saveDevicePosition (remote : RemoteResult) : Unit :=
  match remote with
  | .ok => ()
  | .fail => ()

/-- What the updatePositionBtn click surfaces to the user. -/
inductive PosOutcome where
  | noSelection
  | invalidInput
  | savedToDatabase
  | updatedNotSaved
deriving DecidableEq

/-- The updatePositionBtn click handler (main.js 1538-1573).  parseFloat
results are Option ℚ (none = NaN); after validation the mesh position is
set immediately, and only then is saveDevicePosition awaited for a
database device — its outcome is invisible, and the handler alerts the
success message either way. -/
def updatePositionClick (w : World) (inX inY inZ : Option ℚ)
    (remote : RemoteResult) : World × PosOutcome :=
  match w.selected with
  | none => (w, .noSelection)
  | some k =>
      let data := dbLookup w.deviceDB k
      match inX, inY, inZ with
      | some nx, some ny, some nz =>
          let w1 :=
            { w with
              interactable :=
                updateFirst (fun m => m.dbKey == k)
                  (fun m => { m with posX := nx, posY := ny, posZ := nz })
                  w.interactable }
          match data with
          | some d =>
              if d.dbId.isSome then
                let _saved := saveDevicePosition remote
                (w1, .savedToDatabase)
              else (w1, .updatedNotSaved)
          | none => (w1, .updatedNotSaved)
      | _, _, _ => (w, .invalidInput)

/-! ### State predicates used by the claims -/

/-- No two interactable meshes share a device key (DEVICE_DB keys are
object keys, and each spawned clone gets the fresh key db_id). -/
def uniqueKeys (l : List Mesh) : Prop :=
  l.Pairwise (fun m1 m2 => m1.dbKey ≠ m2.dbKey)

/-- The mesh's material currently equals its original-material snapshot. -/
def materialPristine (m : Mesh) : Prop :=
  m.originalMat = some m.material

/-- The mesh's material has been changed away from its snapshot (what the
highlight does). -/
def isHighlighted (m : Mesh) : Prop :=
  ∃ om, m.originalMat = some om ∧ m.material ≠ om

/-- Number of interactable meshes carrying a given device key. -/
def countKey (l : List Mesh) (k : String) : ℕ :=
  (l.filter (fun m => m.dbKey == k)).length

/-- Invariant of the selection machinery: every mesh has a snapshot whose
intensity differs from the highlight intensity, keys are unique, the
running animations are exactly the current blink tween, and every
non-selected mesh is pristine. -/
def GoodState (w : World) : Prop :=
  (∀ m ∈ w.interactable, ∃ om, m.originalMat = some om ∧ om.emissiveIntensity ≠ 4 / 5) ∧
  uniqueKeys w.interactable ∧
  w.runningTweens = w.blinkTween.toList ∧
  (∀ m ∈ w.interactable, w.selected = some m.dbKey ∨ materialPristine m)

/-! ### Concrete fixtures used by counterexamples and witnesses -/

def exMaterial : Material :=
  { emissiveColor := 0x888888, emissiveIntensity := 1 }

def exRing : RingChild :=
  { color := 0xf59e0b, pulsing := true, geomDisposed := false, matDisposed := false }

def exMesh : Mesh :=
  { name := "db_1", dbKey := "db_1", posX := 0, posY := 0, posZ := 0,
    rotYDeg := 0, centerY := 0, material := exMaterial,
    originalMat := some exMaterial, geomDisposed := false, matDisposed := false,
    children := [exRing], inScene := true }

def exData : DeviceData :=
  { dbId := some 1, name := "Galaxy VL UPS", typeStr := "Uninterruptible Power Supply",
    manufacturer := "Schneider Electric", serial := "SN-GAL-01", health := 91,
    location := "Floor 1", notes := "", warrantyExpiry := none }

/-- A world with one persisted, currently selected device. -/
def exWorld : World :=
  { deviceDB := [("db_1", exData)], interactable := [exMesh], pending := [],
    selected := some "db_1", blinkTween := none, runningTweens := [],
    nextTween := 0, floorConstant := 1000, floorHeight := 6 }

/-- A GLB template mesh as registered by the load callback. -/
def exTemplateMesh : Mesh :=
  { name := "Galaxy_VL_Mesh_01", dbKey := "Galaxy_VL_Mesh_01", posX := 0, posY := 0,
    posZ := 0, rotYDeg := 0, centerY := 0, material := exMaterial,
    originalMat := some exMaterial, geomDisposed := false, matDisposed := false,
    children := [], inScene := true }

/-- A persisted device whose product has no template in the loaded scene. -/
def exRowNoTemplate : DeviceRow :=
  { id := 7, meshIdentifier := "Premset_SG", productName := "Premset Switchgear",
    productType := "MV Switchgear", manufacturer := "Schneider Electric",
    serialNumber := "SN-PRE-01", healthScore := 77, floorNumber := 1,
    positionX := 2, positionY := 0, positionZ := 3, rotationY := 0,
    notes := "", warrantyExpiry := none }

/-- A persisted device whose product does have a loaded template. -/
def exRowGalaxy : DeviceRow :=
  { id := 9, meshIdentifier := "Galaxy_VL", productName := "Galaxy VL UPS",
    productType := "Uninterruptible Power Supply", manufacturer := "Schneider Electric",
    serialNumber := "SN-GAL-09", healthScore := 45, floorNumber := 1,
    positionX := 1, positionY := 0, positionZ := 1, rotationY := 0,
    notes := "", warrantyExpiry := none }

/-- The moment the GLB load callback drains the pending queue, with one
queued device whose template never arrived. -/
def exPendingWorld : World :=
  { deviceDB := [], interactable := [exTemplateMesh], pending := [exRowNoTemplate],
    selected := none, blinkTween := none, runningTweens := [],
    nextTween := 0, floorConstant := 1000, floorHeight := 6 }

/-- The same moment with a queued device whose template is loaded. -/
def exPendingWorldHit : World :=
  { deviceDB := [], interactable := [exTemplateMesh], pending := [exRowGalaxy],
    selected := none, blinkTween := none, runningTweens := [],
    nextTween := 0, floorConstant := 1000, floorHeight := 6 }

def exMeshB : Mesh :=
  { name := "db_2", dbKey := "db_2", posX := 5, posY := 0, posZ := 5,
    rotYDeg := 0, centerY := 0, material := exMaterial,
    originalMat := some exMaterial, geomDisposed := false, matDisposed := false,
    children := [], inScene := true }

def exDataB : DeviceData :=
  { dbId := some 2, name := "NetShelter SX Rack", typeStr := "Server Rack Enclosure",
    manufacturer := "APC by Schneider", serial := "SN-NET-02", health := 55,
    location := "Floor 1", notes := "", warrantyExpiry := none }

/-- A world with two registered devices and nothing selected. -/
def exWorldTwo : World :=
  { deviceDB := [("db_1", exData), ("db_2", exDataB)],
    interactable := [exMesh, exMeshB], pending := [],
    selected := none, blinkTween := none, runningTweens := [],
    nextTween := 0, floorConstant := 1000, floorHeight := 6 }

/-! ### Helper lemmas for the pure status functions -/

lemma healthRank_healthy : healthRank healthHealthy = 2 := by decide

lemma healthRank_warning : healthRank healthWarning = 1 := by decide

lemma healthRank_critical : healthRank healthCritical = 0 := by decide

lemma healthHealthy_ne_warning : healthHealthy ≠ healthWarning := by decide

lemma healthHealthy_ne_critical : healthHealthy ≠ healthCritical := by decide

lemma healthWarning_ne_critical : healthWarning ≠ healthCritical := by decide

/-- On a plain numeric score the NaN-aware embedding agrees with the
numeric one. -/
lemma getHealthInfoJS_some (q : ℚ) : getHealthInfoJS (some q) = getHealthInfo q := by
  unfold getHealthInfoJS getHealthInfo jsGe
  by_cases h1 : q ≥ 80 <;> by_cases h2 : q ≥ 50 <;> simp [h1, h2]

/-! ### Claim theorems for the pure Status Deriver / Floor Filter /
Coordinate Projector -/

/-- Claim C3: the derived status tier is healthy for score ≥ 80, warning for
50 ≤ score < 80 and critical for score < 50, with the boundaries exactly as
stated (80 is healthy, 79 is warning), and the tier is monotonically
non-decreasing in the score. -/
theorem health_tier_boundaries_and_monotone (s t : ℚ) (hst : s ≤ t) :
    (getHealthInfo s = healthHealthy ↔ 80 ≤ s) ∧
    (getHealthInfo s = healthWarning ↔ 50 ≤ s ∧ s < 80) ∧
    (getHealthInfo s = healthCritical ↔ s < 50) ∧
    getHealthInfo 80 = healthHealthy ∧
    getHealthInfo 79 = healthWarning ∧
    healthRank (getHealthInfo s) ≤ healthRank (getHealthInfo t) := by
  refine ⟨?_, ?_, ?_, ?_, ?_, ?_⟩
  · unfold getHealthInfo
    split_ifs with h1 h2
    · exact iff_of_true rfl (by linarith)
    · exact iff_of_false (fun hEq => healthHealthy_ne_warning hEq.symm) (by simpa using h1)
    · exact iff_of_false (fun hEq => healthHealthy_ne_critical hEq.symm) (by simpa using h1)
  · unfold getHealthInfo
    split_ifs with h1 h2
    · exact iff_of_false healthHealthy_ne_warning (fun hc => by linarith [hc.2])
    · exact iff_of_true rfl ⟨by linarith, by simpa using h1⟩
    · exact iff_of_false (fun hEq => healthWarning_ne_critical hEq.symm)
        (fun hc => by simp only [ge_iff_le, not_le] at h2; linarith [hc.1])
  · unfold getHealthInfo
    split_ifs with h1 h2
    · exact iff_of_false healthHealthy_ne_critical (by intro hc; linarith)
    · exact iff_of_false healthWarning_ne_critical
        (by intro hc; simp only [ge_iff_le, not_le] at h1; linarith)
    · exact iff_of_true rfl (by simpa using h2)
  · unfold getHealthInfo; norm_num
  · unfold getHealthInfo; norm_num
  · unfold getHealthInfo
    split_ifs with h1 h2 h3 h4 <;>
      simp only [healthRank_healthy, healthRank_warning, healthRank_critical] <;>
      first
        | omega
        | (exfalso; simp only [ge_iff_le, not_le] at *; linarith)

/-- Claim C3 witness at the boundary scores 79 and 80. -/
theorem health_tier_witness :
    (79 : ℚ) ≤ 80 ∧ getHealthInfo 80 = healthHealthy :=
  ⟨by norm_num, (health_tier_boundaries_and_monotone 79 80 (by norm_num)).2.2.2.1⟩

/-- Claim C10: getHealthInfo is total, performs no range validation, and on
the JS semantics of `>=` every score below 50 (negatives included), and a
NaN score, yield the critical record, while every score of 80 or above
(including values above 100) yields the healthy record. -/
theorem health_total_no_validation (s : Option ℚ) (q : ℚ) :
    (getHealthInfoJS s = healthHealthy ∨ getHealthInfoJS s = healthWarning ∨
      getHealthInfoJS s = healthCritical) ∧
    getHealthInfoJS none = healthCritical ∧
    (q < 50 → getHealthInfoJS (some q) = healthCritical) ∧
    (80 ≤ q → getHealthInfoJS (some q) = healthHealthy) ∧
    getHealthInfoJS (some (-5)) = healthCritical ∧
    getHealthInfoJS (some 150) = healthHealthy := by
  refine ⟨?_, by decide, ?_, ?_, by decide, by decide⟩
  · unfold getHealthInfoJS
    split_ifs <;> simp
  · intro hq
    rw [getHealthInfoJS_some]
    unfold getHealthInfo
    split_ifs with h1 h2
    · linarith
    · linarith
    · rfl
  · intro hq
    rw [getHealthInfoJS_some]
    unfold getHealthInfo
    split_ifs with h1
    · rfl
    · exact absurd hq (by simpa using h1)

/-- Claim C10 witness at NaN and at an out-of-range score. -/
theorem health_total_witness :
    (-7 : ℚ) < 50 ∧ getHealthInfoJS (some (-7)) = healthCritical :=
  ⟨by norm_num, (health_total_no_validation none (-7)).2.2.1 (by norm_num)⟩

/-- Claim C7: the warranty tier is expired below 0 days, critical below 30,
warning below 90 and healthy otherwise, where daysRemaining is the floored
millisecond difference over 86400 s; the ring indicator is attached exactly
when the tier is not healthy, carries the tier's color, and pulses exactly
when daysRemaining < 30. -/
theorem warranty_tier_and_ring_indicator (expiryMs nowMs : ℚ) (d : ℤ)
    (hd : d = daysRemaining expiryMs nowMs) :
    ((getWarrantyStatus d).status = "expired" ↔ d < 0) ∧
    ((getWarrantyStatus d).status = "critical" ↔ 0 ≤ d ∧ d < 30) ∧
    ((getWarrantyStatus d).status = "warning" ↔ 30 ≤ d ∧ d < 90) ∧
    ((getWarrantyStatus d).status = "healthy" ↔ 90 ≤ d) ∧
    ((warrantyRing d).isSome ↔ (getWarrantyStatus d).status ≠ "healthy") ∧
    (∀ r, warrantyRing d = some r →
      some r.color = colorCodeOfHex (getWarrantyStatus d).color ∧
      (r.pulsing = true ↔ d < 30)) := by
  clear hd
  unfold getWarrantyStatus warrantyRing ringColor colorCodeOfHex
  split_ifs with h1 h2 h3 <;>
    simp_all <;>
    first
      | omega
      | (intro r hr; subst hr; simp <;> omega)

/-- Claim C7 witness: warranty expiring 10 days from now (in milliseconds)
is critical and has a pulsing ring. -/
theorem warranty_tier_witness :
    (10 : ℤ) = daysRemaining 864000000 0 ∧
    ((getWarrantyStatus 10).status = "critical" ↔ 0 ≤ (10 : ℤ) ∧ (10 : ℤ) < 30) :=
  ⟨by unfold daysRemaining; norm_num,
   (warranty_tier_and_ring_indicator 864000000 0 10
      (by unfold daysRemaining; norm_num)).2.1⟩

/-- Claim C6: selecting floor n with floor height h sets the clipping
boundary to n × h, and the 2D filter predicate floor(y / h) + 1 = n admits
exactly the y with (n − 1) × h ≤ y < n × h; both are computed from the same
floor-height value. -/
theorem floor_clipping_and_filter_agree (n : ℤ) (h y : ℚ) (hh : 0 < h) :
    clippingConstant n h = n * h ∧
    (deviceFloorOf y h = n ↔ ((n : ℚ) - 1) * h ≤ y ∧ y < clippingConstant n h) := by
  refine ⟨rfl, ?_⟩
  unfold deviceFloorOf clippingConstant
  constructor
  · intro heq
    have hfl : ⌊y / h⌋ = n - 1 := by omega
    have h1 : ((n - 1 : ℤ) : ℚ) ≤ y / h := by rw [← hfl]; exact Int.floor_le _
    have h2 : y / h < ((n - 1 : ℤ) : ℚ) + 1 := by rw [← hfl]; exact Int.lt_floor_add_one _
    rw [le_div_iff hh] at h1
    rw [div_lt_iff hh] at h2
    push_cast at h1 h2
    constructor
    · linarith
    · nlinarith
  · rintro ⟨ha, hb⟩
    have hfl : ⌊y / h⌋ = n - 1 := by
      rw [Int.floor_eq_iff]
      push_cast
      constructor
      · rw [le_div_iff hh]; linarith
      · rw [div_lt_iff hh]; nlinarith
    omega

/-- Claim C6 witness: floor 3 at height 6 clips at 18 and admits y = 15. -/
theorem floor_filter_witness :
    (0 : ℚ) < 6 ∧
    (clippingConstant 3 6 = ((3 : ℤ) : ℚ) * 6 ∧
      (deviceFloorOf 15 6 = 3 ↔
        (((3 : ℤ) : ℚ) - 1) * 6 ≤ 15 ∧ (15 : ℚ) < clippingConstant 3 6)) :=
  ⟨by norm_num, floor_clipping_and_filter_agree 3 6 15 (by norm_num)⟩

/-- Claim C9: the 2D projection is x2d = x × 30 and y2d = −z × 30, the
render projection and the hit-test projection are the same map, the
viewport pan/zoom is a separate transform applied after projection, and the
hit-test's inverse viewport mapping composed with the drawing transform is
the identity on projected points (exactly, hence within any floating-point
tolerance), so a cursor exactly on a drawn device always hits it. -/
theorem topdown_projection_roundtrip (v : NodeViewState) (hv : v.scale ≠ 0)
    (wx wz : ℚ) :
    renderProject wx wz = (wx * 30, -wz * 30) ∧
    renderProject wx wz = hitProject wx wz ∧
    screenToProjected v (viewportToScreen v (renderProject wx wz)) =
      renderProject wx wz ∧
    hitDistSq (screenToProjected v (viewportToScreen v (renderProject wx wz)))
      (hitProject wx wz) = 0 ∧
    hitDistSq (screenToProjected v (viewportToScreen v (renderProject wx wz)))
      (hitProject wx wz) < 400 := by
  have hrt : screenToProjected v (viewportToScreen v (renderProject wx wz)) =
      renderProject wx wz := by
    unfold screenToProjected viewportToScreen renderProject
    field_simp
    ring
  refine ⟨rfl, rfl, hrt, ?_, ?_⟩
  · rw [hrt]
    unfold hitDistSq renderProject hitProject
    ring
  · rw [hrt]
    unfold hitDistSq renderProject hitProject
    norm_num

/-- Claim C9 witness at a concrete viewport and point. -/
theorem topdown_projection_witness :
    ((⟨100, 50, 2⟩ : NodeViewState).scale ≠ 0) ∧
    screenToProjected ⟨100, 50, 2⟩ (viewportToScreen ⟨100, 50, 2⟩ (renderProject 4 7)) =
      renderProject 4 7 :=
  ⟨by norm_num, (topdown_projection_roundtrip ⟨100, 50, 2⟩ (by norm_num) 4 7).2.2.1⟩

/-! ### List-level lemmas about the JS object/array helpers -/

lemma dbLookup_dbRemove_self (db : List (String × DeviceData)) (k : String) :
    dbLookup (dbRemove k db) k = none := by
  have hnone : ((dbRemove k db).find? (fun e => e.1 == k)) = none := by
    rw [List.find?_eq_none]
    intro e he
    have := (List.mem_filter.mp he).2
    simpa using this
  simp [dbLookup, hnone]

lemma findMesh_eq_none_of_forall (w : World) (k : String)
    (h : ∀ m ∈ w.interactable, m.dbKey ≠ k) : findMesh w k = none := by
  unfold findMesh
  rw [List.find?_eq_none]
  intro m hm
  simpa using h m hm

lemma find?_updateFirst_self (l : List Mesh) (k : String) (f : Mesh → Mesh)
    (hf : ∀ m, (f m).dbKey = m.dbKey) :
    (updateFirst (fun m => m.dbKey == k) f l).find? (fun m => m.dbKey == k) =
      (l.find? (fun m => m.dbKey == k)).map f := by
  induction l with
  | nil => simp [updateFirst]
  | cons m ms ih =>
    by_cases hm : m.dbKey = k
    · simp [updateFirst, hm, List.find?_cons_of_pos, hf]
    · rw [updateFirst]
      simp only [hm, beq_iff_eq, if_false]
      rw [List.find?_cons_of_neg _ (by simpa using hm),
        List.find?_cons_of_neg _ (by simpa using hm), ih]

lemma updateFirst_map_dbKey (l : List Mesh) (p : Mesh → Bool) (f : Mesh → Mesh)
    (hf : ∀ m, (f m).dbKey = m.dbKey) :
    (updateFirst p f l).map Mesh.dbKey = l.map Mesh.dbKey := by
  induction l with
  | nil => rfl
  | cons m ms ih =>
    rw [updateFirst]
    by_cases hm : p m
    · simp [hm, hf]
    · simp [hm, ih]

lemma mem_updateFirst_cases (l : List Mesh) (k : String) (f : Mesh → Mesh)
    (hu : uniqueKeys l) (m' : Mesh)
    (hm' : m' ∈ updateFirst (fun m => m.dbKey == k) f l) :
    (m'.dbKey ≠ k ∧ m' ∈ l) ∨
      (∃ m ∈ l, m.dbKey = k ∧ m' = f m) := by
  induction l with
  | nil => simp [updateFirst] at hm'
  | cons m ms ih =>
    have hhd : ∀ x ∈ ms, m.dbKey ≠ x.dbKey := (List.pairwise_cons.mp hu).1
    have htl : uniqueKeys ms := (List.pairwise_cons.mp hu).2
    rw [updateFirst] at hm'
    by_cases hm : m.dbKey = k
    · simp only [hm, beq_self_eq_true, if_true] at hm'
      rcases List.mem_cons.mp hm' with h | h
      · exact Or.inr ⟨m, List.mem_cons_self m ms, hm, h⟩
      · have hne : m'.dbKey ≠ k := by
          intro hk
          exact (hhd m' h) (by rw [hm, hk])
        exact Or.inl ⟨hne, List.mem_cons_of_mem _ h⟩
    · simp only [beq_iff_eq, hm, if_false] at hm'
      rcases List.mem_cons.mp hm' with rfl | h
      · exact Or.inl ⟨hm, List.mem_cons_self m' ms⟩
      · rcases ih htl h with ⟨h1, h2⟩ | ⟨x, hx, hxk, hxe⟩
        · exact Or.inl ⟨h1, List.mem_cons_of_mem _ h2⟩
        · exact Or.inr ⟨x, List.mem_cons_of_mem _ hx, hxk, hxe⟩

lemma find?_removeFirst_self (l : List Mesh) (k : String) (hu : uniqueKeys l) :
    (removeFirst (fun m => m.dbKey == k) l).find? (fun m => m.dbKey == k) = none := by
  induction l with
  | nil => simp [removeFirst]
  | cons m ms ih =>
    have hhd : ∀ x ∈ ms, m.dbKey ≠ x.dbKey := (List.pairwise_cons.mp hu).1
    have htl : uniqueKeys ms := (List.pairwise_cons.mp hu).2
    rw [removeFirst]
    by_cases hm : m.dbKey = k
    · simp only [hm, beq_self_eq_true, if_true]
      rw [List.find?_eq_none]
      intro x hx
      simp only [beq_iff_eq]
      intro hk
      exact (hhd x hx) (by rw [hm, hk])
    · simp only [beq_iff_eq, hm, if_false]
      rw [List.find?_cons_of_neg _ (by simpa using hm)]
      exact ih htl

lemma pristine_not_highlighted (m : Mesh) (h : materialPristine m) :
    ¬ isHighlighted m := by
  rintro ⟨om, hom, hne⟩
  unfold materialPristine at h
  rw [h] at hom
  exact hne (Option.some.inj hom)

/-! ### Claim theorems about the Selection Controller / Sync Gateway /
Visual Instance Pool -/

/-- Claim C8: select on a key with no registered view-model or instance is
a no-op: the state is returned unchanged and no error is thrown. -/
theorem select_absent_key_noop (w : World) (k : String)
    (hmesh : ∀ m ∈ w.interactable, m.dbKey ≠ k)
    (hdb : dbLookup w.deviceDB k = none) :
    select3DByKey w k = Except.ok w := by
  have hfind : findMesh w k = none := findMesh_eq_none_of_forall w k hmesh
  unfold select3DByKey
  rw [hfind]

/-- Claim C8 witness: a key absent from a non-empty world. -/
theorem select_absent_key_witness :
    ((∀ m ∈ exWorld.interactable, m.dbKey ≠ "ghost") ∧
      dbLookup exWorld.deviceDB "ghost" = none) ∧
    select3DByKey exWorld "ghost" = Except.ok exWorld :=
  ⟨⟨by decide, by decide⟩,
   select_absent_key_noop exWorld "ghost" (by decide) (by decide)⟩

/-- Claim C1 counterexample: with the remote save failing, the position
update still moves the mesh locally (from x = 0 to x = 1) and still
reports the success outcome — the local visual state is not left as it
was and the failure is not surfaced. -/
theorem update_position_optimistic_counterexample :
    (updatePositionClick exWorld (some 1) (some 2) (some 3) RemoteResult.fail).2 =
      PosOutcome.savedToDatabase ∧
    ((findMesh (updatePositionClick exWorld (some 1) (some 2) (some 3)
        RemoteResult.fail).1 "db_1").map Mesh.posX) = some 1 ∧
    (findMesh exWorld "db_1").map Mesh.posX = some 0 := by
  decide

/-- Claim C1 as amended: the delete operation applies its local effect only
after the remote call confirms success and surfaces the failure, but the
position update writes the mesh position before the remote call, keeps it
when the call fails, and reports the success outcome either way because
saveDevicePosition swallows the error. -/
theorem sync_gateway_amended (w : World) (k : String) (mk : Mesh) (d : DeviceData)
    (nx ny nz : ℚ) (remote : RemoteResult)
    (hsel : w.selected = some k)
    (hfind : findMesh w k = some mk)
    (hdb : dbLookup w.deviceDB k = some d)
    (hdbid : d.dbId.isSome) :
    deleteClick w true RemoteResult.fail = (w, none, DeleteOutcome.remoteFailed) ∧
    dbLookup (deleteClick w true RemoteResult.ok).1.deviceDB k = none ∧
    (updatePositionClick w (some nx) (some ny) (some nz) remote).2 =
      PosOutcome.savedToDatabase ∧
    (findMesh (updatePositionClick w (some nx) (some ny) (some nz) remote).1 k).map
      Mesh.posX = some nx ∧
    updatePositionClick w (some nx) (some ny) (some nz) RemoteResult.ok =
      updatePositionClick w (some nx) (some ny) (some nz) RemoteResult.fail ∧
    saveDevicePosition RemoteResult.fail = saveDevicePosition RemoteResult.ok := by
  have hkey : mk.dbKey = k := by
    have := List.find?_some hfind
    simpa using this
  refine ⟨?_, ?_, ?_, ?_, rfl, rfl⟩
  · unfold deleteClick
    simp only [hsel, hfind, hdb]
    simp [hdbid]
  · unfold deleteClick
    simp only [hsel, hfind, hdb]
    simp only [not_true_eq_false, if_false, reduceCtorEq, and_false, ite_false]
    rw [hkey]
    exact dbLookup_dbRemove_self w.deviceDB k
  · unfold updatePositionClick
    simp only [hsel, hdb]
    simp [hdbid]
  · unfold updatePositionClick
    simp only [hsel, hdb]
    simp only [hdbid, if_true]
    unfold findMesh
    simp only
    rw [find?_updateFirst_self w.interactable k
      (fun m => { m with posX := nx, posY := ny, posZ := nz }) (fun m => rfl)]
    unfold findMesh at hfind
    rw [hfind]
    rfl

/-- Claim C1 amended witness at the concrete selected database device. -/
theorem sync_gateway_amended_witness :
    (exWorld.selected = some "db_1" ∧
      findMesh exWorld "db_1" = some exMesh ∧
      dbLookup exWorld.deviceDB "db_1" = some exData ∧
      exData.dbId.isSome) ∧
    deleteClick exWorld true RemoteResult.fail =
      (exWorld, none, DeleteOutcome.remoteFailed) :=
  ⟨⟨by decide, by decide, by decide, by decide⟩,
   (sync_gateway_amended exWorld "db_1" exMesh exData 1 2 3 RemoteResult.fail
      (by decide) (by decide) (by decide) (by decide)).1⟩

/-- Claim C2 counterexample: after the delete click finishes, the registry
entry is gone and success was reported, but the captured visual instance is
not yet disposed and is still attached to the scene — disposal happens only
later, in the fade tween's completion callback, so the instance outlives
its view-model. -/
theorem delete_deferred_disposal_counterexample :
    dbLookup (deleteClick exWorld true RemoteResult.ok).1.deviceDB "db_1" = none ∧
    (deleteClick exWorld true RemoteResult.ok).2.2 = DeleteOutcome.removed true ∧
    (deleteClick exWorld true RemoteResult.ok).2.1.map Mesh.geomDisposed = some false ∧
    (deleteClick exWorld true RemoteResult.ok).2.1.map Mesh.inScene = some true := by
  decide

/-- Claim C2 as amended: the delete click synchronously removes the
registry entry and the interactable-mesh entry, so a subsequent select on
the key is a no-op; disposal of the instance (geometry, material, child
indicators, scene detachment) is deferred to completeMeshDeletion, run from
the fade animation's completion callback, after which everything owned by
the instance is disposed and detached. -/
theorem delete_disposal_amended (w : World) (k : String) (mk : Mesh)
    (d : DeviceData) (remote : RemoteResult)
    (hsel : w.selected = some k)
    (hfind : findMesh w k = some mk)
    (hdb : dbLookup w.deviceDB k = some d)
    (hok : d.dbId.isSome → remote = RemoteResult.ok)
    (huniq : uniqueKeys w.interactable) :
    ∃ w1, deleteClick w true remote = (w1, some mk, DeleteOutcome.removed d.dbId.isSome) ∧
      dbLookup w1.deviceDB k = none ∧
      findMesh w1 k = none ∧
      select3DByKey w1 k = Except.ok w1 ∧
      (completeMeshDeletion mk).1.geomDisposed = true ∧
      (completeMeshDeletion mk).1.matDisposed = true ∧
      (completeMeshDeletion mk).1.children = [] ∧
      (completeMeshDeletion mk).1.inScene = false ∧
      ∀ c ∈ (completeMeshDeletion mk).2, c.geomDisposed = true ∧ c.matDisposed = true := by
  have hkey : mk.dbKey = k := by
    have := List.find?_some hfind
    simpa using this
  have hcond : ¬ (d.dbId.isSome ∧ remote = RemoteResult.fail) := by
    rintro ⟨h1, h2⟩
    rw [hok h1] at h2
    exact RemoteResult.noConfusion h2
  refine ⟨{ w with
      selected := none,
      interactable := removeFirst (fun m => m.dbKey == mk.dbKey) w.interactable,
      deviceDB := dbRemove mk.dbKey w.deviceDB }, ?_, ?_, ?_, ?_, rfl, rfl, rfl, rfl, ?_⟩
  · unfold deleteClick
    simp only [hsel, hfind, hdb]
    simp [hcond]
  · simp only [hkey]
    exact dbLookup_dbRemove_self w.deviceDB k
  · unfold findMesh
    simp only [hkey]
    exact find?_removeFirst_self w.interactable k huniq
  · unfold select3DByKey
    have hnone : findMesh
        { w with
          selected := none,
          interactable := removeFirst (fun m => m.dbKey == mk.dbKey) w.interactable,
          deviceDB := dbRemove mk.dbKey w.deviceDB } k = none := by
      unfold findMesh
      simp only [hkey]
      exact find?_removeFirst_self w.interactable k huniq
    rw [hnone]
  · intro c hc
    unfold completeMeshDeletion at hc
    simp only at hc
    rcases List.mem_map.mp hc with ⟨c0, _, hmap⟩
    rw [← hmap]
    exact ⟨rfl, rfl⟩

/-- Claim C2 amended witness at the concrete selected database device. -/
theorem delete_disposal_amended_witness :
    (exWorld.selected = some "db_1" ∧
      findMesh exWorld "db_1" = some exMesh ∧
      dbLookup exWorld.deviceDB "db_1" = some exData ∧
      uniqueKeys exWorld.interactable) ∧
    ∃ w1, deleteClick exWorld true RemoteResult.ok =
        (w1, some exMesh, DeleteOutcome.removed exData.dbId.isSome) ∧
      dbLookup w1.deviceDB "db_1" = none ∧
      findMesh w1 "db_1" = none ∧
      select3DByKey w1 "db_1" = Except.ok w1 ∧
      (completeMeshDeletion exMesh).1.geomDisposed = true ∧
      (completeMeshDeletion exMesh).1.matDisposed = true ∧
      (completeMeshDeletion exMesh).1.children = [] ∧
      (completeMeshDeletion exMesh).1.inScene = false ∧
      ∀ c ∈ (completeMeshDeletion exMesh).2, c.geomDisposed = true ∧ c.matDisposed = true :=
  ⟨⟨by decide, by decide, by decide, by simp [uniqueKeys, exWorld]⟩,
   delete_disposal_amended exWorld "db_1" exMesh exData RemoteResult.ok
     (by decide) (by decide) (by decide) (fun _ => rfl)
     (by simp [uniqueKeys, exWorld])⟩

/-! ### Lemmas about spawning and the pending-queue drain -/

lemma addWarrantyIndicator_dbKey (m : Mesh) (e : Option ℚ) (nowMs : ℚ) :
    (addWarrantyIndicator m e nowMs).dbKey = m.dbKey := by
  unfold addWarrantyIndicator
  cases e with
  | none => rfl
  | some x =>
    show (match warrantyRing (daysRemaining x nowMs) with
      | some r => { m with children := m.children ++ [r] }
      | none => m).dbKey = m.dbKey
    cases warrantyRing (daysRemaining x nowMs) <;> rfl

lemma countKey_append_single (l : List Mesh) (c : Mesh) (k : String) :
    countKey (l ++ [c]) k = countKey l k + (if c.dbKey = k then 1 else 0) := by
  unfold countKey
  rw [List.filter_append]
  by_cases h : c.dbKey = k <;> simp [h]

lemma spawn_countKey_ne (nowMs : ℚ) (w : World) (row : DeviceRow) (k : String)
    (hne : dbKeyOfRow row ≠ k) :
    countKey (spawnDeviceFromDatabase nowMs w row).1.interactable k =
      countKey w.interactable k := by
  unfold spawnDeviceFromDatabase
  cases hf : w.interactable.find? (fun m => strIncludes m.name row.meshIdentifier) with
  | none => rfl
  | some tmpl =>
    simp only
    rw [countKey_append_single, addWarrantyIndicator_dbKey]
    simp [hne]

lemma spawn_countKey_hit (nowMs : ℚ) (w : World) (row : DeviceRow)
    (htmpl : ∃ m ∈ w.interactable, strIncludes m.name row.meshIdentifier = true) :
    countKey (spawnDeviceFromDatabase nowMs w row).1.interactable (dbKeyOfRow row) =
      countKey w.interactable (dbKeyOfRow row) + 1 := by
  unfold spawnDeviceFromDatabase
  cases hf : w.interactable.find? (fun m => strIncludes m.name row.meshIdentifier) with
  | none =>
    exfalso
    have hex : (w.interactable.find?
        (fun m => strIncludes m.name row.meshIdentifier)).isSome := by
      rw [List.find?_isSome]
      obtain ⟨m, hm, hs⟩ := htmpl
      exact ⟨m, hm, hs⟩
    rw [hf] at hex
    exact Bool.noConfusion hex
  | some tmpl =>
    simp only
    rw [countKey_append_single, addWarrantyIndicator_dbKey]
    simp

lemma spawn_preserves_template (nowMs : ℚ) (w : World) (row : DeviceRow)
    (P : Mesh → Bool) (h : ∃ m ∈ w.interactable, P m = true) :
    ∃ m ∈ (spawnDeviceFromDatabase nowMs w row).1.interactable, P m = true := by
  unfold spawnDeviceFromDatabase
  cases hf : w.interactable.find? (fun m => strIncludes m.name row.meshIdentifier) with
  | none => exact h
  | some tmpl =>
    obtain ⟨m, hm, hp⟩ := h
    exact ⟨m, List.mem_append_left _ hm, hp⟩

lemma drainFold_countKey_ne (nowMs : ℚ) (L : List DeviceRow) (w : World) (k : String)
    (h : ∀ r ∈ L, dbKeyOfRow r ≠ k) :
    countKey ((L.foldl (fun acc row => (spawnDeviceFromDatabase nowMs acc row).1)
      w).interactable) k = countKey w.interactable k := by
  induction L generalizing w with
  | nil => rfl
  | cons r L ih =>
    rw [List.foldl_cons]
    rw [ih _ (fun x hx => h x (List.mem_cons_of_mem _ hx))]
    exact spawn_countKey_ne nowMs w r k (h r (List.mem_cons_self r L))

lemma drainFold_countKey_once (nowMs : ℚ) (L : List DeviceRow) (w : World)
    (row : DeviceRow)
    (htmpl : ∃ m ∈ w.interactable, strIncludes m.name row.meshIdentifier = true)
    (hcount : L.count row = 1)
    (hkeys : ∀ r ∈ L, r ≠ row → dbKeyOfRow r ≠ dbKeyOfRow row)
    (hzero : countKey w.interactable (dbKeyOfRow row) = 0) :
    countKey ((L.foldl (fun acc r => (spawnDeviceFromDatabase nowMs acc r).1)
      w).interactable) (dbKeyOfRow row) = 1 := by
  induction L generalizing w with
  | nil => simp at hcount
  | cons r L ih =>
    rw [List.foldl_cons]
    by_cases hr : r = row
    · subst hr
      have hcL : L.count r = 0 := by
        rw [List.count_cons_self] at hcount
        omega
      have hnotin : r ∉ L := by rwa [List.count_eq_zero] at hcL
      rw [drainFold_countKey_ne nowMs L _ _
        (fun x hx hk => (hkeys x (List.mem_cons_of_mem _ hx)
          (fun hxr => hnotin (hxr ▸ hx))) hk)]
      rw [spawn_countKey_hit nowMs w r htmpl, hzero]
    · have hcount' : L.count row = 1 := by
        rw [List.count_cons] at hcount
        simpa [hr] using hcount
      exact ih _ (spawn_preserves_template nowMs w r _ htmpl) hcount'
        (fun x hx hxne => hkeys x (List.mem_cons_of_mem _ hx) hxne)
        (by
          rw [spawn_countKey_ne nowMs w r _ (hkeys r (List.mem_cons_self r L) hr)]
          exact hzero)

/-- Claim C4 counterexample: a device queued because its template was not
yet loaded whose template is still absent when the Asset Provider's load
callback drains the queue — the drain empties the queue, but the device
ends with zero Visual Instances, not exactly one (it is re-enqueued during
the forEach and then dropped by the queue reset). -/
theorem pending_drop_counterexample :
    (drainPending 0 exPendingWorld).pending = [] ∧
    countKey (drainPending 0 exPendingWorld).interactable (dbKeyOfRow exRowNoTemplate) = 0 ∧
    (spawnDeviceFromDatabase 0 exPendingWorld exRowNoTemplate).2 = none := by
  decide

/-- Claim C4 as amended: spawning a device with no loaded template
enqueues it and returns the null pending marker; when the Asset Provider
finishes loading, the queued entries are each processed once and the queue
is emptied; a queued device whose template geometry is then present ends
with exactly one Visual Instance and is no longer queued, while one whose
template is still absent ends with none. -/
theorem pending_queue_drain_amended (nowMs : ℚ) (w : World) (row : DeviceRow)
    (hcount : w.pending.count row = 1)
    (hkeys : ∀ r ∈ w.pending, r ≠ row → dbKeyOfRow r ≠ dbKeyOfRow row)
    (htmpl : ∃ m ∈ w.interactable, strIncludes m.name row.meshIdentifier = true)
    (hzero : countKey w.interactable (dbKeyOfRow row) = 0) :
    countKey (drainPending nowMs w).interactable (dbKeyOfRow row) = 1 ∧
    (drainPending nowMs w).pending = [] ∧
    (∀ w' row',
      w'.interactable.find? (fun m => strIncludes m.name row'.meshIdentifier) = none →
      spawnDeviceFromDatabase nowMs w' row' =
        ({ w' with pending := w'.pending ++ [row'] }, none)) := by
  refine ⟨?_, rfl, ?_⟩
  · unfold drainPending
    exact drainFold_countKey_once nowMs w.pending w row htmpl hcount hkeys hzero
  · intro w' row' hf
    unfold spawnDeviceFromDatabase
    rw [hf]

/-- Claim C4 amended witness: one queued device with a loaded template. -/
theorem pending_queue_drain_witness :
    (exPendingWorldHit.pending.count exRowGalaxy = 1 ∧
      (∀ r ∈ exPendingWorldHit.pending, r ≠ exRowGalaxy →
        dbKeyOfRow r ≠ dbKeyOfRow exRowGalaxy) ∧
      (∃ m ∈ exPendingWorldHit.interactable,
        strIncludes m.name exRowGalaxy.meshIdentifier = true) ∧
      countKey exPendingWorldHit.interactable (dbKeyOfRow exRowGalaxy) = 0) ∧
    countKey (drainPending 0 exPendingWorldHit).interactable (dbKeyOfRow exRowGalaxy) = 1 ∧
    (drainPending 0 exPendingWorldHit).pending = [] :=
  ⟨⟨by decide, by decide, by decide, by decide⟩,
   (pending_queue_drain_amended 0 exPendingWorldHit exRowGalaxy
      (by decide) (by decide) (by decide) (by decide)).1,
   (pending_queue_drain_amended 0 exPendingWorldHit exRowGalaxy
      (by decide) (by decide) (by decide) (by decide)).2.1⟩

/-! ### Lemmas about deselection and selection -/

lemma restoreOriginal_dbKey (m : Mesh) : (restoreOriginal m).dbKey = m.dbKey := by
  unfold restoreOriginal
  cases h : m.originalMat <;> simp [h]

lemma restoreOriginal_originalMat (m : Mesh) :
    (restoreOriginal m).originalMat = m.originalMat := by
  unfold restoreOriginal
  cases h : m.originalMat <;> simp [h]

lemma uniqueKeys_of_map_eq (l l' : List Mesh)
    (h : l'.map Mesh.dbKey = l.map Mesh.dbKey) (hu : uniqueKeys l) :
    uniqueKeys l' := by
  have h1 : (l.map Mesh.dbKey).Pairwise Ne := List.pairwise_map.mpr hu
  rw [← h] at h1
  exact List.pairwise_map.mp h1

lemma deselect_false_deviceDB (w : World) :
    (deselectAll3D w false).deviceDB = w.deviceDB := by
  unfold deselectAll3D
  cases hb : w.blinkTween <;> cases hs : w.selected <;> simp [hb, hs]

lemma deselect_false_selected (w : World) :
    (deselectAll3D w false).selected = none := by
  unfold deselectAll3D
  cases hb : w.blinkTween <;> cases hs : w.selected <;> simp [hb, hs]

lemma deselect_false_blink (w : World) :
    (deselectAll3D w false).blinkTween = none := by
  unfold deselectAll3D
  cases hb : w.blinkTween <;> cases hs : w.selected <;> simp [hb, hs]

lemma deselect_false_nextTween (w : World) :
    (deselectAll3D w false).nextTween = w.nextTween := by
  unfold deselectAll3D
  cases hb : w.blinkTween <;> cases hs : w.selected <;> simp [hb, hs]

lemma deselect_false_floorHeight (w : World) :
    (deselectAll3D w false).floorHeight = w.floorHeight := by
  unfold deselectAll3D
  cases hb : w.blinkTween <;> cases hs : w.selected <;> simp [hb, hs]

lemma deselect_false_running (w : World)
    (hrun : w.runningTweens = w.blinkTween.toList) :
    (deselectAll3D w false).runningTweens = [] := by
  unfold deselectAll3D
  cases hb : w.blinkTween <;> cases hs : w.selected <;>
    simp [hb, hs, hrun, List.erase_cons_head]

lemma deselect_false_interactable_none (w : World) (hs : w.selected = none) :
    (deselectAll3D w false).interactable = w.interactable := by
  unfold deselectAll3D
  cases hb : w.blinkTween <;> simp [hb, hs]

lemma deselect_false_interactable_some (w : World) (s : String)
    (hs : w.selected = some s) :
    (deselectAll3D w false).interactable =
      updateFirst (fun m => m.dbKey == s) restoreOriginal w.interactable := by
  unfold deselectAll3D
  cases hb : w.blinkTween <;> simp [hb, hs]

lemma deselect_false_map_dbKey (w : World) :
    (deselectAll3D w false).interactable.map Mesh.dbKey =
      w.interactable.map Mesh.dbKey := by
  cases hs : w.selected with
  | none => rw [deselect_false_interactable_none w hs]
  | some s =>
    rw [deselect_false_interactable_some w s hs]
    exact updateFirst_map_dbKey _ _ _ restoreOriginal_dbKey

lemma deselect_false_uniqueKeys (w : World) (hu : uniqueKeys w.interactable) :
    uniqueKeys (deselectAll3D w false).interactable :=
  uniqueKeys_of_map_eq _ _ (deselect_false_map_dbKey w) hu

lemma deselect_false_pristine (w : World) (hgood : GoodState w) :
    ∀ m' ∈ (deselectAll3D w false).interactable, materialPristine m' := by
  obtain ⟨hsnap, huniq, hrun, hselp⟩ := hgood
  intro m' hm'
  cases hs : w.selected with
  | none =>
    rw [deselect_false_interactable_none w hs] at hm'
    rcases hselp m' hm' with h | h
    · rw [hs] at h
      exact Option.noConfusion h
    · exact h
  | some s =>
    rw [deselect_false_interactable_some w s hs] at hm'
    rcases mem_updateFirst_cases w.interactable s restoreOriginal huniq m' hm' with
      ⟨hne, hmem⟩ | ⟨m0, hm0, hk0, heq⟩
    · rcases hselp m' hmem with h | h
      · rw [hs] at h
        exact absurd (Option.some.inj h).symm hne
      · exact h
    · subst heq
      obtain ⟨om, hom, _⟩ := hsnap m0 hm0
      simp [materialPristine, restoreOriginal, hom]

lemma deselect_false_snapshot (w : World) (hgood : GoodState w) :
    ∀ m' ∈ (deselectAll3D w false).interactable,
      ∃ om, m'.originalMat = some om ∧ om.emissiveIntensity ≠ 4 / 5 := by
  obtain ⟨hsnap, huniq, hrun, hselp⟩ := hgood
  intro m' hm'
  cases hs : w.selected with
  | none =>
    rw [deselect_false_interactable_none w hs] at hm'
    exact hsnap m' hm'
  | some s =>
    rw [deselect_false_interactable_some w s hs] at hm'
    rcases mem_updateFirst_cases w.interactable s restoreOriginal huniq m' hm' with
      ⟨hne, hmem⟩ | ⟨m0, hm0, hk0, heq⟩
    · exact hsnap m' hmem
    · subst heq
      obtain ⟨om, hom, hne45⟩ := hsnap m0 hm0
      exact ⟨om, by rw [restoreOriginal_originalMat]; exact hom, hne45⟩

lemma findMesh_isSome_of_map_eq (w w' : World) (k : String)
    (hmap : w'.interactable.map Mesh.dbKey = w.interactable.map Mesh.dbKey)
    (h : (findMesh w k).isSome) : (findMesh w' k).isSome := by
  unfold findMesh at *
  rw [List.find?_isSome] at *
  obtain ⟨m, hm, hp⟩ := h
  have hmem : m.dbKey ∈ w'.interactable.map Mesh.dbKey := by
    rw [hmap]
    exact List.mem_map_of_mem _ hm
  obtain ⟨m', hm', hk⟩ := List.mem_map.mp hmem
  refine ⟨m', hm', ?_⟩
  simp only [beq_iff_eq] at hp ⊢
  rw [hk]
  exact hp

/-- Reduction of a successful select to an explicit record: deselect the
previous selection, then highlight the found mesh, start a fresh tween and
refocus the clipping plane. -/
lemma select3DByKey_eq (w : World) (k : String) (mk : Mesh) (d : DeviceData)
    (hfind : findMesh w k = some mk)
    (hdb : dbLookup w.deviceDB k = some d) :
    select3DByKey w k = Except.ok
      { deselectAll3D w false with
        selected := some k,
        interactable :=
          updateFirst (fun m => m.dbKey == k)
            (applyHighlight (getHealthInfo d.health).three)
            (deselectAll3D w false).interactable,
        blinkTween := some (deselectAll3D w false).nextTween,
        runningTweens :=
          (deselectAll3D w false).runningTweens ++ [(deselectAll3D w false).nextTween],
        nextTween := (deselectAll3D w false).nextTween + 1,
        floorConstant :=
          ((⌊mk.centerY / (deselectAll3D w false).floorHeight⌋ + 1 : ℤ) : ℚ) *
            (deselectAll3D w false).floorHeight } := by
  have hkey : mk.dbKey = k := by simpa using List.find?_some hfind
  have hD : (deselectAll3D w false).deviceDB = w.deviceDB := deselect_false_deviceDB w
  unfold select3DByKey
  rw [hfind]
  unfold select3DMesh
  simp only [hD, hkey, hdb]

/-- One successful select step and everything the selection claims need to
know about its result and about the intermediate deselected state. -/
lemma select_step (w : World) (k : String) (mk : Mesh) (d : DeviceData)
    (hfind : findMesh w k = some mk)
    (hdb : dbLookup w.deviceDB k = some d)
    (hgood : GoodState w) :
    ∃ w', select3DByKey w k = Except.ok w' ∧
      GoodState w' ∧
      w'.selected = some k ∧
      w'.deviceDB = w.deviceDB ∧
      w'.interactable.map Mesh.dbKey = w.interactable.map Mesh.dbKey ∧
      w'.runningTweens.length = 1 ∧
      (∀ m' ∈ w'.interactable, isHighlighted m' ↔ m'.dbKey = k) ∧
      (∀ m' ∈ w'.interactable, m'.dbKey ≠ k → materialPristine m') ∧
      (deselectAll3D w false).runningTweens = [] ∧
      (∀ m' ∈ (deselectAll3D w false).interactable, ¬ isHighlighted m') := by
  obtain ⟨hsnap, huniq, hrun, hselp⟩ := hgood
  have hDpr : ∀ m' ∈ (deselectAll3D w false).interactable, materialPristine m' :=
    deselect_false_pristine w ⟨hsnap, huniq, hrun, hselp⟩
  have hDsnap := deselect_false_snapshot w ⟨hsnap, huniq, hrun, hselp⟩
  have hDuniq := deselect_false_uniqueKeys w huniq
  have hDrun := deselect_false_running w hrun
  have hDmap := deselect_false_map_dbKey w
  have hmapU : (updateFirst (fun m => m.dbKey == k)
      (applyHighlight (getHealthInfo d.health).three)
      (deselectAll3D w false).interactable).map Mesh.dbKey =
      w.interactable.map Mesh.dbKey := by
    rw [updateFirst_map_dbKey _ _ (applyHighlight (getHealthInfo d.health).three)
      (fun m => rfl)]
    exact hDmap
  have hmemCases : ∀ m' ∈ updateFirst (fun m => m.dbKey == k)
      (applyHighlight (getHealthInfo d.health).three)
      (deselectAll3D w false).interactable,
      (m'.dbKey ≠ k ∧ m' ∈ (deselectAll3D w false).interactable) ∨
      (∃ m0 ∈ (deselectAll3D w false).interactable, m0.dbKey = k ∧
        m' = applyHighlight (getHealthInfo d.health).three m0) :=
    fun m' hm' => mem_updateFirst_cases _ k _ hDuniq m' hm'
  refine ⟨_, select3DByKey_eq w k mk d hfind hdb, ?_, rfl, deselect_false_deviceDB w,
    hmapU, ?_, ?_, ?_, hDrun, fun m' hm' => pristine_not_highlighted m' (hDpr m' hm')⟩
  case refine_2 =>
    show ((deselectAll3D w false).runningTweens ++
      [(deselectAll3D w false).nextTween]).length = 1
    rw [hDrun]
    rfl
  case refine_3 =>
    intro m' hm'
    rcases hmemCases m' hm' with ⟨hne, hmem⟩ | ⟨m0, hm0, hk0, heq⟩
    · exact iff_of_false (pristine_not_highlighted m' (hDpr m' hmem)) hne
    · obtain ⟨om, hom, hne45⟩ := hDsnap m0 hm0
      subst heq
      refine iff_of_true ⟨om, hom, ?_⟩ hk0
      intro hEq
      apply hne45
      rw [← hEq]
      rfl
  case refine_4 =>
    intro m' hm' hne
    rcases hmemCases m' hm' with ⟨_, hmem⟩ | ⟨m0, hm0, hk0, heq⟩
    · exact hDpr m' hmem
    · subst heq
      exact absurd hk0 hne
  case refine_1 =>
    refine ⟨?_, ?_, ?_, ?_⟩
    · intro m' hm'
      rcases hmemCases m' hm' with ⟨_, hmem⟩ | ⟨m0, hm0, hk0, heq⟩
      · exact hDsnap m' hmem
      · obtain ⟨om, hom, hne45⟩ := hDsnap m0 hm0
        subst heq
        exact ⟨om, hom, hne45⟩
    · exact uniqueKeys_of_map_eq w.interactable _ hmapU huniq
    · show (deselectAll3D w false).runningTweens ++ [(deselectAll3D w false).nextTween] =
        (some (deselectAll3D w false).nextTween).toList
      rw [hDrun]
      rfl
    · intro m' hm'
      rcases hmemCases m' hm' with ⟨hne, hmem⟩ | ⟨m0, hm0, hk0, heq⟩
      · exact Or.inr (hDpr m' hmem)
      · subst heq
        refine Or.inl ?_
        show some k = some (applyHighlight (getHealthInfo d.health).three m0).dbKey
        rw [show (applyHighlight (getHealthInfo d.health).three m0).dbKey = m0.dbKey from rfl,
          hk0]

/-- Claim C5: from any well-formed selection state, select(a) then
select(b) with a ≠ b leaves exactly one instance highlighted, namely b's,
with a's material restored to its original snapshot, and the previous
highlight animation is stopped (and its highlight removed) in the
intermediate deselected state before b's single animation is started — at
no point do two highlight animations run. -/
theorem select_switch_single_highlight (w : World) (a b : String) (ma mb : Mesh)
    (da dbv : DeviceData) (hab : a ≠ b)
    (hfa : findMesh w a = some ma) (hfb : findMesh w b = some mb)
    (hda : dbLookup w.deviceDB a = some da) (hdbv : dbLookup w.deviceDB b = some dbv)
    (hgood : GoodState w) :
    ∃ w1 w2, select3DByKey w a = Except.ok w1 ∧ select3DByKey w1 b = Except.ok w2 ∧
      w2.selected = some b ∧
      (∀ m ∈ w2.interactable, isHighlighted m ↔ m.dbKey = b) ∧
      (∀ m ∈ w2.interactable, m.dbKey = a → materialPristine m) ∧
      w2.runningTweens.length = 1 ∧
      (deselectAll3D w1 false).runningTweens = [] ∧
      (∀ m ∈ (deselectAll3D w1 false).interactable, ¬ isHighlighted m) := by
  obtain ⟨w1, hsel1, hgood1, _, hdb1, hmap1, _, _, _, _, _⟩ :=
    select_step w a ma da hfa hda hgood
  have hb1 : (findMesh w1 b).isSome :=
    findMesh_isSome_of_map_eq w w1 b hmap1 (by rw [hfb]; rfl)
  obtain ⟨mb1, hmb1⟩ := Option.isSome_iff_exists.mp hb1
  have hdbb1 : dbLookup w1.deviceDB b = some dbv := by
    rw [hdb1]
    exact hdbv
  obtain ⟨w2, hsel2, hgood2, hsel2b, _, _, hlen2, hhl2, hpr2, hmidrun, hmidhl⟩ :=
    select_step w1 b mb1 dbv hmb1 hdbb1 hgood1
  exact ⟨w1, w2, hsel1, hsel2, hsel2b, hhl2,
    fun m hm hma => hpr2 m hm (by rw [hma]; exact hab),
    hlen2, hmidrun, hmidhl⟩

lemma exWorldTwo_good : GoodState exWorldTwo := by
  refine ⟨?_, ?_, rfl, ?_⟩
  · intro m hm
    have hcases : m = exMesh ∨ m = exMeshB := by simpa [exWorldTwo] using hm
    rcases hcases with rfl | rfl
    · exact ⟨exMaterial, rfl, by norm_num [exMaterial]⟩
    · exact ⟨exMaterial, rfl, by norm_num [exMaterial]⟩
  · show List.Pairwise _ [exMesh, exMeshB]
    refine List.Pairwise.cons ?_ (List.pairwise_singleton _ _)
    intro m' hm'
    have hm'' : m' = exMeshB := by simpa using hm'
    subst hm''
    decide
  · intro m hm
    have hcases : m = exMesh ∨ m = exMeshB := by simpa [exWorldTwo] using hm
    rcases hcases with rfl | rfl
    · exact Or.inr rfl
    · exact Or.inr rfl

/-- Claim C5 witness at a concrete two-device world. -/
theorem select_switch_witness :
    ("db_1" : String) ≠ "db_2" ∧
    ∃ w1 w2, select3DByKey exWorldTwo "db_1" = Except.ok w1 ∧
      select3DByKey w1 "db_2" = Except.ok w2 ∧
      w2.selected = some "db_2" ∧
      (∀ m ∈ w2.interactable, isHighlighted m ↔ m.dbKey = "db_2") ∧
      (∀ m ∈ w2.interactable, m.dbKey = "db_1" → materialPristine m) ∧
      w2.runningTweens.length = 1 ∧
      (deselectAll3D w1 false).runningTweens = [] ∧
      (∀ m ∈ (deselectAll3D w1 false).interactable, ¬ isHighlighted m) :=
  ⟨by decide,
   select_switch_single_highlight exWorldTwo "db_1" "db_2" exMesh exMeshB exData exDataB
     (by decide) (by decide) (by decide) (by decide) (by decide) exWorldTwo_good⟩

end HomeTwin
